import Mathlib

/-!
Verification of `radar_fusion_to_detected_object.launch.py`.

The source file defines a single function `generate_launch_description`
that builds a ROS 2 launch description: it appends one
`DeclareLaunchArgument` to a fresh list, appends one `Node` descriptor to
a second fresh list, and returns `launch.LaunchDescription` applied to the
concatenation of the two lists.  The launch framework types
(`DeclareLaunchArgument`, `Node`, `LaunchDescription`) are third-party
black boxes; following the source, they are embedded here as plain
records holding exactly the fields the source passes, with every field
the source does not pass left at the framework default `none`.
-/

namespace RadarLaunch

/-- A Python value as it occurs in this launch file: the string literals
passed to the constructors, the boolean literal `False` passed as
`default_value`, and Python `None` for framework defaults that are not
supplied. -/
inductive PyValue where
  | str (s : String)
  | bool (b : Bool)
  | pyNone
  deriving DecidableEq, Repr

/-- Black-box embedding of `launch.actions.DeclareLaunchArgument`: a named
launch argument with an optional default value and an optional
description.  The source constructor call at lines 14-17 supplies the
name positionally and `default_value` by keyword; `description` is not
supplied and stays at the framework default. -/
structure DeclareLaunchArgument where
  name : String
  default_value : Option PyValue
  description : Option String
  deriving DecidableEq, Repr

/-- Black-box embedding of `launch_ros.actions.Node`: the node descriptor.
Fields the source constructor call at lines 23-27 supplies are `package`,
`node_executable` (the executable name, passed via the keyword
`node_executable`) and `output`; the remaining fields (node name,
namespace, parameters, remappings) are not supplied and stay at the
framework default. -/
structure Node where
  package : Option String
  node_executable : Option String
  output : Option String
  node_name : Option String
  node_namespace : Option String
  parameters : Option (List PyValue)
  remappings : Option (List (String × String))
  deriving DecidableEq, Repr

/-- An entry of a launch description: in the source the list passed to
`launch.LaunchDescription` is a heterogeneous Python list holding
`DeclareLaunchArgument` and `Node` values, embedded here as a sum. -/
inductive LaunchEntry where
  | argument (a : DeclareLaunchArgument)
  | node (n : Node)
  deriving DecidableEq, Repr

/-- Black-box embedding of `launch.LaunchDescription`: the ordered
collection of entries handed back to the orchestrator. -/
structure LaunchDescription where
  entries : List LaunchEntry
  deriving DecidableEq, Repr

/-- The value bound by the module-level import
`from tkinter.messagebox import NO` (in CPython's `tkinter.messagebox`,
`NO` is the string constant `"no"`).  The exact value is irrelevant to
the function body, which never mentions `NO`; this is proved below. -/
def tkinter_messagebox_NO : PyValue := PyValue.str "no"

/-- The one `DeclareLaunchArgument` the source constructs (lines 14-17):
name `use_radar_fusion_to_detected_object`, default value the Python
boolean `False`, no description supplied. -/
def declared_argument : DeclareLaunchArgument :=
  { name := "use_radar_fusion_to_detected_object"
    default_value := some (PyValue.bool false)
    description := none }

/-- The one `Node` the source constructs (lines 23-27): package
`radar_fusion_to_detected_object`, executable
`radar_fusion_to_detected_object_node` passed via the keyword
`node_executable`, output `screen`; every other field is left at the
framework default. -/
def declared_node : Node :=
  { package := some "radar_fusion_to_detected_object"
    node_executable := some "radar_fusion_to_detected_object_node"
    output := some "screen"
    node_name := none
    node_namespace := none
    parameters := none
    remappings := none }

/-- The body of `generate_launch_description`, parameterised by the value
the module-level import binds to `NO`.  Mirrors the source line by line:
`launch_arguments` starts empty and one argument is appended;
`launch_nodes` starts empty and one node is appended; the result is
`launch.LaunchDescription(launch_arguments + launch_nodes)`.  The
parameter `v` (the binding of `NO`) does not occur in the body, exactly
as `NO` does not occur in the source body. -/
def generate_launch_description_given (v : PyValue) : LaunchDescription :=
  let launch_arguments : List DeclareLaunchArgument := []
  let launch_arguments := launch_arguments ++ [declared_argument]
  let launch_nodes : List Node := []
  let launch_nodes := launch_nodes ++ [declared_node]
  { entries :=
      launch_arguments.map LaunchEntry.argument
        ++ launch_nodes.map LaunchEntry.node }

/-- `generate_launch_description` as the module defines it: the body run
with `NO` bound to the value the import actually produces. -/
def generate_launch_description : LaunchDescription :=
  generate_launch_description_given tkinter_messagebox_NO

/-- State-passing embedding of the same function: Python code could in
principle read or mutate state outside the value it builds, so the
translation threads an arbitrary outside-world state `world` through the
body.  The source body contains only local-list construction and a
return, with no global read or write, so the translation returns the
constructed descriptor and the world state unchanged. -/
def generate_launch_description_prog (σ : Type) (world : σ) :
    LaunchDescription × σ :=
  (generate_launch_description_given tkinter_messagebox_NO, world)

/-- Exception-aware embedding of the `DeclareLaunchArgument` constructor
call: per the spec the framework constructor is a black box supporting
name plus default value, and construction with fixed literal inputs does
not fail, so the call always returns a value. -/
def DeclareLaunchArgument.construct (nm : String) (dv : Option PyValue) :
    Except String DeclareLaunchArgument :=
  Except.ok { name := nm, default_value := dv, description := none }

/-- Exception-aware embedding of the `Node` constructor call: a black-box
constructor over the three supplied literals that always returns a
value. -/
def Node.construct (pkg exe out : String) : Except String Node :=
  Except.ok
    { package := some pkg
      node_executable := some exe
      output := some out
      node_name := none
      node_namespace := none
      parameters := none
      remappings := none }

/-- Exception-aware embedding of `generate_launch_description`: every
statement of the body is translated to an `Except` action, so that any
reachable failure path would surface as `Except.error`. -/
def generate_launch_description_exc : Except String LaunchDescription := do
  let launch_arguments : List DeclareLaunchArgument := []
  let a ← DeclareLaunchArgument.construct
    "use_radar_fusion_to_detected_object" (some (PyValue.bool false))
  let launch_arguments := launch_arguments ++ [a]
  let launch_nodes : List Node := []
  let n ← Node.construct
    "radar_fusion_to_detected_object"
    "radar_fusion_to_detected_object_node"
    "screen"
  let launch_nodes := launch_nodes ++ [n]
  return { entries :=
      launch_arguments.map LaunchEntry.argument
        ++ launch_nodes.map LaunchEntry.node }

/-- Decidable test for an argument entry, used to count entries by kind. -/
def LaunchEntry.isArgument : LaunchEntry → Bool
  | .argument _ => true
  | .node _ => false

/-- Decidable test for a node entry, used to count entries by kind. -/
def LaunchEntry.isNode : LaunchEntry → Bool
  | .argument _ => false
  | .node _ => true

/-- C1: the description returned by `generate_launch_description` is the
concatenation of the argument sequence before the node sequence, and its
entries are exactly one launch-argument entry followed by exactly one
node entry. -/
theorem generate_launch_description_arg_then_node :
    generate_launch_description.entries
      = List.map LaunchEntry.argument [declared_argument]
        ++ List.map LaunchEntry.node [declared_node]
    ∧ (generate_launch_description.entries.filter LaunchEntry.isArgument).length = 1
    ∧ (generate_launch_description.entries.filter LaunchEntry.isNode).length = 1
    ∧ generate_launch_description.entries
      = [LaunchEntry.argument declared_argument, LaunchEntry.node declared_node] := by
  refine ⟨rfl, rfl, rfl, rfl⟩

/-- C2: every launch-argument entry of the returned description (there is
exactly one) has name `use_radar_fusion_to_detected_object` and default
value the boolean `false`. -/
theorem generate_launch_description_argument_fields :
    ∀ a : DeclareLaunchArgument,
      LaunchEntry.argument a ∈ generate_launch_description.entries →
        a.name = "use_radar_fusion_to_detected_object"
          ∧ a.default_value = some (PyValue.bool false) := by
  intro a ha
  have h : LaunchEntry.argument a = LaunchEntry.argument declared_argument
      ∨ LaunchEntry.argument a = LaunchEntry.node declared_node := by
    simpa [generate_launch_description, generate_launch_description_given,
      List.mem_cons] using ha
  rcases h with h | h
  · cases h
    exact ⟨rfl, rfl⟩
  · cases h

/-- Witness for C2: the theorem applied to the concrete argument entry
that is a member of the returned description. -/
theorem generate_launch_description_argument_fields_witness :
    declared_argument.name = "use_radar_fusion_to_detected_object"
      ∧ declared_argument.default_value = some (PyValue.bool false) :=
  generate_launch_description_argument_fields declared_argument (by decide)

/-- C3: every node entry of the returned description (there is exactly
one) has package `radar_fusion_to_detected_object`, executable
`radar_fusion_to_detected_object_node`, and output mode `screen`. -/
theorem generate_launch_description_node_fields :
    ∀ n : Node,
      LaunchEntry.node n ∈ generate_launch_description.entries →
        n.package = some "radar_fusion_to_detected_object"
          ∧ n.node_executable = some "radar_fusion_to_detected_object_node"
          ∧ n.output = some "screen" := by
  intro n hn
  have h : LaunchEntry.node n = LaunchEntry.argument declared_argument
      ∨ LaunchEntry.node n = LaunchEntry.node declared_node := by
    simpa [generate_launch_description, generate_launch_description_given,
      List.mem_cons] using hn
  rcases h with h | h
  · cases h
  · cases h
    exact ⟨rfl, rfl, rfl⟩

/-- Witness for C3: the theorem applied to the concrete node entry that
is a member of the returned description. -/
theorem generate_launch_description_node_fields_witness :
    declared_node.package = some "radar_fusion_to_detected_object"
      ∧ declared_node.node_executable = some "radar_fusion_to_detected_object_node"
      ∧ declared_node.output = some "screen" :=
  generate_launch_description_node_fields declared_node (by decide)

/-- C4: under the exception-aware embedding of the body, no failure path
is reachable: the invocation (which takes no input) succeeds and returns
the launch description. -/
theorem generate_launch_description_never_fails :
    generate_launch_description_exc = Except.ok generate_launch_description := rfl

/-- C5: the builder is pure and deterministic: run from any two outside
worlds, the two returned descriptors are structurally equal (and equal to
the returned value of the direct embedding). -/
theorem generate_launch_description_deterministic :
    ∀ (σ : Type) (s t : σ),
      (generate_launch_description_prog σ s).1
        = (generate_launch_description_prog σ t).1
      ∧ (generate_launch_description_prog σ s).1 = generate_launch_description :=
  fun _ _ _ => ⟨rfl, rfl⟩

/-- C6: the builder has no side effects: the outside-world state it was
run from comes back unchanged, and the result is the inert descriptor
value (no action beyond constructing it is taken). -/
theorem generate_launch_description_frame :
    ∀ (σ : Type) (s : σ),
      (generate_launch_description_prog σ s).2 = s
      ∧ (generate_launch_description_prog σ s).1 = generate_launch_description :=
  fun _ _ => ⟨rfl, rfl⟩

/-- C7: the construction is total and terminating: it is a structurally
recursive-free straight-line definition, and it evaluates completely to
the explicit literal descriptor below (full normalisation, established
definitionally). -/
theorem generate_launch_description_terminates :
    generate_launch_description
      = { entries :=
            [ LaunchEntry.argument
                { name := "use_radar_fusion_to_detected_object"
                  default_value := some (PyValue.bool false)
                  description := none },
              LaunchEntry.node
                { package := some "radar_fusion_to_detected_object"
                  node_executable := some "radar_fusion_to_detected_object_node"
                  output := some "screen"
                  node_name := none
                  node_namespace := none
                  parameters := none
                  remappings := none } ] } := rfl

/-- C8: the returned descriptor does not depend on the value the
module-level import binds to `NO`: for any two values it could be bound
to, the body returns the same descriptor. -/
theorem generate_launch_description_independent_of_NO :
    ∀ v w : PyValue,
      generate_launch_description_given v = generate_launch_description_given w :=
  fun _ _ => rfl

/-- C9: the node descriptor is constructed with exactly the three fields
package, executable (via the keyword `node_executable`) and output — node
name, namespace, parameters and remappings all stay at the unset
default — and the launch argument is constructed with exactly a name and
a default value, its description staying unset. -/
theorem generate_launch_description_only_given_fields :
    ∀ (a : DeclareLaunchArgument) (n : Node),
      LaunchEntry.argument a ∈ generate_launch_description.entries →
      LaunchEntry.node n ∈ generate_launch_description.entries →
        a.description = none
          ∧ n.node_name = none
          ∧ n.node_namespace = none
          ∧ n.parameters = none
          ∧ n.remappings = none
          ∧ n.package = some "radar_fusion_to_detected_object"
          ∧ n.node_executable = some "radar_fusion_to_detected_object_node"
          ∧ n.output = some "screen" := by
  intro a n ha hn
  have h1 : LaunchEntry.argument a = LaunchEntry.argument declared_argument
      ∨ LaunchEntry.argument a = LaunchEntry.node declared_node := by
    simpa [generate_launch_description, generate_launch_description_given,
      List.mem_cons] using ha
  have h2 : LaunchEntry.node n = LaunchEntry.argument declared_argument
      ∨ LaunchEntry.node n = LaunchEntry.node declared_node := by
    simpa [generate_launch_description, generate_launch_description_given,
      List.mem_cons] using hn
  rcases h1 with h1 | h1
  · cases h1
    rcases h2 with h2 | h2
    · cases h2
    · cases h2
      exact ⟨rfl, rfl, rfl, rfl, rfl, rfl, rfl, rfl⟩
  · cases h1

/-- Witness for C9: the theorem applied to the concrete argument and node
entries of the returned description. -/
theorem generate_launch_description_only_given_fields_witness :
    declared_argument.description = none
      ∧ declared_node.node_name = none
      ∧ declared_node.node_namespace = none
      ∧ declared_node.parameters = none
      ∧ declared_node.remappings = none
      ∧ declared_node.package = some "radar_fusion_to_detected_object"
      ∧ declared_node.node_executable = some "radar_fusion_to_detected_object_node"
      ∧ declared_node.output = some "screen" :=
  generate_launch_description_only_given_fields declared_argument declared_node
    (by decide) (by decide)

end RadarLaunch
